import Mathlib

/-!
Shallow embedding of the sale/inventory core of the
simple-sales-inventory-api FastAPI service.

Tables are lists of rows (a row's position models insertion order, so
`List.find?` models SQL `.first()`).  Python `Decimal` money values —
always 2-decimal-place values of `Numeric(10,2)` columns — are modelled
as an exact integer count of cents (`Int`), so every arithmetic step of
the source (`Decimal * int` products and `Decimal` sums, both exact) is
mirrored exactly.  SQLAlchemy transaction
semantics: `db.commit()` installs the working state, `db.rollback()`
restores the state from before the transaction.
-/

namespace SalesApi

/-- Row of `products` (app/models/products.py). -/
structure Product where
  id : Nat
  name : String
  cost_price : Int
  selling_price : Int
  business_id : Nat
deriving DecidableEq

/-- Row of `inventory` (app/models/inventory.py); `expiry_date` is a day
index. -/
structure Inventory where
  id : Nat
  product_id : Nat
  quantity_available : Int
  low_stock_threshold : Int
  expiry_date : Option Int
deriving DecidableEq

/-- Row of `sales` (app/models/sales.py). -/
structure Sale where
  id : Nat
  business_id : Nat
  total_amount : Int
  request_id : String
deriving DecidableEq

/-- Row of `sale_items` (app/models/sale_items.py). -/
structure SaleItem where
  id : Nat
  sale_id : Nat
  product_id : Nat
  quantity : Int
  selling_price : Int
  line_total : Int
deriving DecidableEq

/-- Row of `export_access` (app/models/export_access.py); dates are day
indices. -/
structure ExportAccess where
  id : Nat
  business_id : Nat
  period_type : String
  start_date : Int
  end_date : Int
  amount_paid : Int
  transaction_reference : String
deriving DecidableEq

/-- The relational store: one list per table, plus the autoincrement
counters of the integer primary keys. -/
structure DB where
  products : List Product
  inventories : List Inventory
  sales : List Sale
  sale_items : List SaleItem
  export_access : List ExportAccess
  next_product_id : Nat
  next_inventory_id : Nat
  next_sale_id : Nat
  next_sale_item_id : Nat
deriving DecidableEq

/-- Outcome of an endpoint call: an HTTP success with a payload, an
`HTTPException(status_code, detail)`, or an uncaught Python
`AttributeError` (which FastAPI surfaces as a 500 internal server
error). -/
inductive ApiResult (α : Type) where
  | ok (status : Nat) (value : α)
  | httpError (status : Nat) (detail : String)
  | attrError (attr : String)
deriving DecidableEq

/-- `app/schemas/sale.py` `SaleItemCreate`: {product_id: int, quantity:
int}. -/
structure SaleItemCreate where
  product_id : Nat
  quantity : Int
deriving DecidableEq

/-- `app/schemas/sale.py` `SaleCreate`.  Its only declared field is
`items`; the schema declares no `request_id` field. -/
structure SaleCreate where
  items : List SaleItemCreate
deriving DecidableEq

/-- The attribute read `sale_data.request_id` performed by the router.
Pydantic models ignore undeclared fields of the request body and raise
`AttributeError` when an undeclared attribute is read, so the lookup
never yields a value: it is `none` for every parsed `SaleCreate`. -/
def SaleCreate.attr_request_id (_ : SaleCreate) : Option String := none

/-- `db.query(Product).filter(Product.id == pid, Product.business_id ==
bid).first()`. -/
def findProduct (db : DB) (bid pid : Nat) : Option Product :=
  db.products.find? (fun p => p.id == pid && p.business_id == bid)

/-- `db.query(Inventory).filter(Inventory.product_id == pid).first()`
(the sale path adds `.with_for_update()`, a lock, which is invisible in
this single-request model). -/
def findInventory (db : DB) (pid : Nat) : Option Inventory :=
  db.inventories.find? (fun inv => inv.product_id == pid)

/-- `db.query(Sale).filter(Sale.business_id == bid, Sale.request_id ==
rid).first()`. -/
def findSaleByRequest (db : DB) (bid : Nat) (rid : String) : Option Sale :=
  db.sales.find? (fun s => s.business_id == bid && s.request_id == rid)

/-- `inventory.quantity_available -= qty` applied to the row `.first()`
returned: the first row whose `product_id` matches. -/
def decrementFirst (pid : Nat) (qty : Int) : List Inventory → List Inventory
  | [] => []
  | inv :: rest =>
    if inv.product_id == pid then
      { inv with quantity_available := inv.quantity_available - qty } :: rest
    else
      inv :: decrementFirst pid qty rest

/-- `sale.total_amount = total` applied to the sale row with id `sid`. -/
def setTotalFirst (sid : Nat) (total : Int) : List Sale → List Sale
  | [] => []
  | s :: rest =>
    if s.id == sid then
      { s with total_amount := total } :: rest
    else
      s :: setTotalFirst sid total rest

/-- Working state of the per-item loop of `create_sale` (sales.py lines
81-124): the session's pending table state, the running
`total_amount`, and the accumulated `sale_items_objects`. -/
structure LoopState where
  db : DB
  total_amount : Int
  sale_items_objects : List SaleItem
deriving DecidableEq

/-- One iteration of the loop of `create_sale` (sales.py lines 81-124)
for business `bid` and the flushed sale id `sid`: validate the
quantity, resolve the product scoped to the business, lock and read the
inventory row, check stock, decrement, and append the pending
`SaleItem`.  An `HTTPException(status, detail)` is the error value. -/
def processItem (bid sid : Nat) (st : LoopState) (item : SaleItemCreate) :
    Except (Nat × String) LoopState :=
  if item.quantity ≤ 0 then
    Except.error (400, "Item quantity must be greater than zero")
  else
    match findProduct st.db bid item.product_id with
    | none => Except.error (404, "Product not found")
    | some product =>
      match findInventory st.db product.id with
      | none => Except.error (400, "No inventory for " ++ product.name)
      | some inventory =>
        if inventory.quantity_available < item.quantity then
          Except.error (400, "Insufficient stock for " ++ product.name)
        else
          Except.ok
            { db :=
                { st.db with
                  inventories := decrementFirst product.id item.quantity st.db.inventories,
                  next_sale_item_id := st.db.next_sale_item_id + 1 },
              total_amount := st.total_amount + product.selling_price * item.quantity,
              sale_items_objects := st.sale_items_objects ++
                [{ id := st.db.next_sale_item_id,
                   sale_id := sid,
                   product_id := product.id,
                   quantity := item.quantity,
                   selling_price := product.selling_price,
                   line_total := product.selling_price * item.quantity }] }

/-- The loop `for item in sale_data.items` in request order; the first
`HTTPException` aborts the remaining iterations. -/
def processItems (bid sid : Nat) : List SaleItemCreate → LoopState → Except (Nat × String) LoopState
  | [], st => Except.ok st
  | item :: rest, st =>
    match processItem bid sid st item with
    | Except.error e => Except.error e
    | Except.ok st' => processItems bid sid rest st'

/-- The placeholder `Sale` row inserted and flushed at the start of the
transaction (sales.py lines 73-79): zero total, the client request id,
next autoincrement id. -/
def newSaleRow (bid : Nat) (rid : String) (db : DB) : Sale :=
  { id := db.next_sale_id, business_id := bid, total_amount := 0, request_id := rid }

/-- Session state at the top of the loop: the placeholder `Sale` row
has been added and flushed (sales.py lines 73-79), the running total is
`Decimal("0.00")` and `sale_items_objects` is empty (lines 69-70). -/
def initLoopState (bid : Nat) (rid : String) (db : DB) : LoopState :=
  { db := { db with
            sales := db.sales ++ [newSaleRow bid rid db],
            next_sale_id := db.next_sale_id + 1 },
    total_amount := 0,
    sale_items_objects := [] }

/-- The sale transaction proper (sales.py lines 69-139), given the
request-id value the router reads: insert the placeholder `Sale`, run
the per-item loop, then either write the total, insert the
`SaleItem` rows and commit, or — on any `HTTPException` — roll the
whole transaction back, leaving the store exactly as it was. -/
def create_sale_txn (bid : Nat) (rid : String) (items : List SaleItemCreate) (db : DB) :
    ApiResult Sale × DB :=
  match processItems bid db.next_sale_id items (initLoopState bid rid db) with
  | Except.error e => (ApiResult.httpError e.1 e.2, db)
  | Except.ok st =>
      (ApiResult.ok 201 { (newSaleRow bid rid db) with total_amount := st.total_amount },
       { st.db with
         sales := setTotalFirst db.next_sale_id st.total_amount st.db.sales,
         sale_items := st.db.sale_items ++ st.sale_items_objects })

/-- `POST /sales` (`create_sale`, sales.py lines 37-139), for the
authenticated caller's business `bid`: reject empty item lists, reject
duplicate product ids (`len(ids) != len(set(ids))`), then read
`sale_data.request_id` — an attribute the `SaleCreate` schema does not
declare, so the read raises `AttributeError` and the request never
reaches the idempotency lookup at lines 55-62; had the read produced a
value, the router would return an existing `(business_id, request_id)`
sale unchanged or run the transaction. -/
def create_sale (bid : Nat) (sale_data : SaleCreate) (db : DB) : ApiResult Sale × DB :=
  if sale_data.items = [] then
    (ApiResult.httpError 400 "Sale must contain items", db)
  else if (sale_data.items.map (fun i => i.product_id)).length ≠
      ((sale_data.items.map (fun i => i.product_id)).dedup).length then
    (ApiResult.httpError 400 "Duplicate products in sale are not allowed", db)
  else
    match sale_data.attr_request_id with
    | none => (ApiResult.attrError "request_id", db)
    | some rid =>
      match findSaleByRequest db bid rid with
      | some existing => (ApiResult.ok 201 existing, db)
      | none => create_sale_txn bid rid sale_data.items db

/-- `app/schemas/inventory.py` `InventoryCreate` (the
`low_stock_threshold` default of 5 is applied by the parser before the
router runs). -/
structure InventoryCreate where
  quantity_available : Int
  low_stock_threshold : Int
  expiry_date : Option Int
deriving DecidableEq

/-- `app/schemas/inventory.py` `InventoryUpdate`: every field
optional. -/
structure InventoryUpdate where
  quantity_available : Option Int
  low_stock_threshold : Option Int
  expiry_date : Option Int
deriving DecidableEq

/-- `POST /inventory/{product_id}` (`add_inventory`, inventory.py):
resolve the product scoped to the business, reject an existing row
(`product.inventory`), reject a negative quantity, else insert and
commit the new row. -/
def add_inventory (bid pid : Nat) (inventory_data : InventoryCreate) (db : DB) :
    ApiResult Inventory × DB :=
  match findProduct db bid pid with
  | none => (ApiResult.httpError 404 "Product not found", db)
  | some product =>
    match findInventory db product.id with
    | some _ => (ApiResult.httpError 400 "Inventory already exists", db)
    | none =>
      if inventory_data.quantity_available < 0 then
        (ApiResult.httpError 400 "Quantity cannot be negative", db)
      else
        (ApiResult.ok 201
           { id := db.next_inventory_id,
             product_id := product.id,
             quantity_available := inventory_data.quantity_available,
             low_stock_threshold := inventory_data.low_stock_threshold,
             expiry_date := inventory_data.expiry_date },
         { db with
           inventories := db.inventories ++
             [{ id := db.next_inventory_id,
                product_id := product.id,
                quantity_available := inventory_data.quantity_available,
                low_stock_threshold := inventory_data.low_stock_threshold,
                expiry_date := inventory_data.expiry_date }],
           next_inventory_id := db.next_inventory_id + 1 })

/-- Commit of a row update: replace the row with the same primary key. -/
def replaceInventoryFirst (iid : Nat) (inv' : Inventory) : List Inventory → List Inventory
  | [] => []
  | r :: rest =>
    if r.id == iid then inv' :: rest else r :: replaceInventoryFirst iid inv' rest

/-- Final step of `update_inventory`: apply the optional `expiry_date`
assignment, then `db.commit()` the accumulated row state. -/
def update_inventory_expiry_step (inv : Inventory) (inventory_data : InventoryUpdate) (db : DB) :
    ApiResult Inventory × DB :=
  match inventory_data.expiry_date with
  | some d =>
      (ApiResult.ok 200 { inv with expiry_date := some d },
       { db with inventories := replaceInventoryFirst inv.id { inv with expiry_date := some d } db.inventories })
  | none =>
      (ApiResult.ok 200 inv,
       { db with inventories := replaceInventoryFirst inv.id inv db.inventories })

/-- Middle step of `update_inventory`: the optional
`low_stock_threshold` assignment, rejected when negative (an
`HTTPException` before `db.commit()` leaves every pending assignment
uncommitted, so the store is returned unchanged). -/
def update_inventory_threshold_step (inv : Inventory) (inventory_data : InventoryUpdate) (db : DB) :
    ApiResult Inventory × DB :=
  match inventory_data.low_stock_threshold with
  | some t =>
      if t < 0 then (ApiResult.httpError 400 "Low stock threshold cannot be negative", db)
      else update_inventory_expiry_step { inv with low_stock_threshold := t } inventory_data db
  | none => update_inventory_expiry_step inv inventory_data db

/-- `PUT /inventory/{product_id}` (`update_inventory`, inventory.py):
resolve the inventory row joined to a product of the caller's business,
then apply the optional quantity / threshold / expiry assignments in
source order, rejecting negative values with a 400 and committing at
the end. -/
def update_inventory (bid pid : Nat) (inventory_data : InventoryUpdate) (db : DB) :
    ApiResult Inventory × DB :=
  match db.inventories.find? (fun inv => inv.product_id == pid &&
      db.products.any (fun p => p.id == inv.product_id && p.business_id == bid)) with
  | none => (ApiResult.httpError 404 "Inventory not found", db)
  | some inventory =>
    match inventory_data.quantity_available with
    | some q =>
        if q < 0 then (ApiResult.httpError 400 "Quantity cannot be negative", db)
        else update_inventory_threshold_step { inventory with quantity_available := q } inventory_data db
    | none => update_inventory_threshold_step inventory inventory_data db

/-- `app/schemas/product.py` `ProductCreate` (pydantic additionally
validates 0 < price < 100_000_000 at parse time). -/
structure ProductCreate where
  name : String
  cost_price : Int
  selling_price : Int
deriving DecidableEq

/-- `app/schemas/product.py` `ProductUpdate`: every field optional. -/
structure ProductUpdate where
  name : Option String
  cost_price : Option Int
  selling_price : Option Int
deriving DecidableEq

/-- `POST /products` (`create_product`, products.py): reject a
duplicate name within the business with 409, reject
`selling_price < cost_price` with 400, else insert and commit. -/
def create_product (bid : Nat) (product_data : ProductCreate) (db : DB) :
    ApiResult Product × DB :=
  match db.products.find? (fun p => p.name == product_data.name && p.business_id == bid) with
  | some _ => (ApiResult.httpError 409 "Product with this name already exists", db)
  | none =>
    if product_data.selling_price < product_data.cost_price then
      (ApiResult.httpError 400 "Selling price cannot be lower than cost price", db)
    else
      (ApiResult.ok 201
         { id := db.next_product_id,
           name := product_data.name,
           cost_price := product_data.cost_price,
           selling_price := product_data.selling_price,
           business_id := bid },
       { db with
         products := db.products ++
           [{ id := db.next_product_id,
              name := product_data.name,
              cost_price := product_data.cost_price,
              selling_price := product_data.selling_price,
              business_id := bid }],
         next_product_id := db.next_product_id + 1 })

/-- Commit of a product update: replace the row with the same primary
key. -/
def replaceProductFirst (pid : Nat) (p' : Product) : List Product → List Product
  | [] => []
  | r :: rest =>
    if r.id == pid then p' :: rest else r :: replaceProductFirst pid p' rest

/-- The row state a successful `update_product` commits: the retained
value of each price stands in for an absent field, exactly as the
router computes `new_cost_price` / `new_selling_price`. -/
def updatedProduct (product : Product) (product_data : ProductUpdate) : Product :=
  { product with
    name := product_data.name.getD product.name,
    cost_price := product_data.cost_price.getD product.cost_price,
    selling_price := product_data.selling_price.getD product.selling_price }

/-- `PUT /products/{product_id}` (`update_product`, products.py):
resolve the product scoped to the business, validate the new selling
price against the new cost price — each falling back to the retained
value when not supplied — then apply the assignments and commit. -/
def update_product (bid pid : Nat) (product_data : ProductUpdate) (db : DB) :
    ApiResult Product × DB :=
  match findProduct db bid pid with
  | none => (ApiResult.httpError 404 "Product not found", db)
  | some product =>
    if product_data.selling_price.getD product.selling_price <
        product_data.cost_price.getD product.cost_price then
      (ApiResult.httpError 400 "Selling price cannot be lower than cost price", db)
    else
      (ApiResult.ok 200 (updatedProduct product product_data),
       { db with products := replaceProductFirst product.id (updatedProduct product product_data) db.products })

/-- `ORDER BY end_date DESC ... .first()` over a list of rows: a row
with maximal `end_date` (the earliest such row on ties, as a stable
sort leaves it first), or `none` on the empty list. -/
def firstByEndDateDesc : List ExportAccess → Option ExportAccess
  | [] => none
  | e :: rest =>
    match firstByEndDateDesc rest with
    | none => some e
    | some b => if b.end_date > e.end_date then some b else some e

/-- `get_active_subscription` (app/core/subscription.py): the
`ExportAccess` row of the business whose `[start_date, end_date]`
window contains `today`, preferring the latest `end_date`; `none` when
no window contains `today`. -/
def get_active_subscription (db : DB) (business_id : Nat) (today : Int) : Option ExportAccess :=
  firstByEndDateDesc (db.export_access.filter
    (fun e => e.business_id == business_id &&
      decide (e.start_date ≤ today) && decide (today ≤ e.end_date)))

/-- Pointwise replacement of every product's `cost_price` (used to
state that the sale path never reads that column). -/
def mapCosts (f : Product → Int) (db : DB) : DB :=
  { db with products := db.products.map (fun p => { p with cost_price := f p }) }

/-- Replacement of the whole `export_access` table (used to state that
the sale path never reads it). -/
def setExports (es : List ExportAccess) (db : DB) : DB :=
  { db with export_access := es }

/-- Invariant of claim C4: every inventory row holds a non-negative
available quantity. -/
abbrev invNonneg (db : DB) : Prop :=
  ∀ inv ∈ db.inventories, 0 ≤ inv.quantity_available

/-- `mapCosts` lifted to the loop state. -/
def mapCostsLS (f : Product → Int) (st : LoopState) : LoopState :=
  { st with db := mapCosts f st.db }

/-- `setExports` lifted to the loop state. -/
def setExportsLS (es : List ExportAccess) (st : LoopState) : LoopState :=
  { st with db := setExports es st.db }

/-- A product of business 1: Rice, cost 3.00, selling price 5.00. -/
def demoProduct : Product :=
  { id := 1, name := "Rice", cost_price := 300, selling_price := 500, business_id := 1 }

/-- Ten units of Rice on hand. -/
def demoInventory : Inventory :=
  { id := 1, product_id := 1, quantity_available := 10, low_stock_threshold := 5,
    expiry_date := none }

/-- A store holding one business (id 1) with the Rice product and its
inventory, no sales yet. -/
def demoDB : DB :=
  { products := [demoProduct], inventories := [demoInventory], sales := [], sale_items := [],
    export_access := [], next_product_id := 2, next_inventory_id := 2, next_sale_id := 1,
    next_sale_item_id := 1 }

/-- The receipt the transaction engine commits for two units of Rice
under request id "r1". -/
def demoSaleResult : Sale :=
  { id := 1, business_id := 1, total_amount := 1000, request_id := "r1" }

/-- The store after that committed sale: Rice stock decremented 10 → 8,
the sale row and its line item persisted. -/
def demoDBAfterSale : DB :=
  { demoDB with
    inventories := [{ demoInventory with quantity_available := 8 }],
    sales := [demoSaleResult],
    sale_items := [{ id := 1, sale_id := 1, product_id := 1, quantity := 2,
                     selling_price := 500, line_total := 1000 }],
    next_sale_id := 2, next_sale_item_id := 2 }

/-- A store in which business 1 already committed `demoSaleResult`
under request id "r1". -/
def dbWithSale : DB :=
  { demoDB with sales := [demoSaleResult], next_sale_id := 2 }

/-- A second product of business 1: Beans, cost 4.00, selling 6.00. -/
def beansProduct : Product :=
  { id := 2, name := "Beans", cost_price := 400, selling_price := 600, business_id := 1 }

/-- Five units of Beans on hand. -/
def beansInventory : Inventory :=
  { id := 2, product_id := 2, quantity_available := 5, low_stock_threshold := 5,
    expiry_date := none }

/-- A store with both Rice (10 on hand) and Beans (5 on hand). -/
def twoProductDB : DB :=
  { demoDB with
    products := [demoProduct, beansProduct],
    inventories := [demoInventory, beansInventory],
    next_product_id := 3, next_inventory_id := 3 }

/-- A second product of business 1 that has no inventory row. -/
def chairProduct : Product :=
  { id := 2, name := "Chairs", cost_price := 700, selling_price := 900, business_id := 1 }

/-- A store where Rice has inventory but Chairs has none. -/
def noInvDB : DB :=
  { demoDB with products := [demoProduct, chairProduct], next_product_id := 3 }


/-- The product row committed by a concrete `create_product` run. -/
def oilProduct : Product :=
  { id := 2, name := "Oil", cost_price := 200, selling_price := 250, business_id := 1 }

/-- The demo store after that product creation. -/
def dbWithOil : DB :=
  { demoDB with products := [demoProduct, oilProduct], next_product_id := 3 }

/-- Rice after a price update that lowers the selling price to 4.50
(still above its 3.00 cost). -/
def discountedRice : Product :=
  { demoProduct with selling_price := 450 }

/-- The demo store after that product update commits. -/
def dbWithDiscountedRice : DB :=
  { demoDB with products := [discountedRice] }

end SalesApi

namespace SalesApi

/-- A list with a repeated element shrinks strictly under `dedup`
(`len(ids) != len(set(ids))` detects exactly the duplicates). -/
theorem length_ne_dedup_of_not_nodup (l : List Nat) (hnd : ¬ l.Nodup) :
    l.length ≠ l.dedup.length := by
  intro heq
  apply hnd
  have hsub : List.Sublist l.dedup l := List.dedup_sublist l
  have hde : l.dedup = l := hsub.eq_of_length heq.symm
  rw [← hde]
  exact List.nodup_dedup l

/-- A successful loop iteration appends exactly one pending `SaleItem`
carrying `line_total = selling_price * quantity`, adds that line total
to the running total, and leaves the committed `sale_items` table of
the session untouched. -/
theorem processItem_ok_shape (bid sid : Nat) (st : LoopState) (item : SaleItemCreate)
    (st1 : LoopState) (h : processItem bid sid st item = Except.ok st1) :
    ∃ one : SaleItem,
      st1.sale_items_objects = st.sale_items_objects ++ [one] ∧
      st1.total_amount = st.total_amount + one.line_total ∧
      one.sale_id = sid ∧
      one.line_total = one.selling_price * one.quantity ∧
      st1.db.sale_items = st.db.sale_items := by
  unfold processItem at h
  split at h
  · cases h
  · split at h
    · cases h
    · split at h
      · cases h
      · split at h
        · cases h
        · cases h
          exact ⟨_, rfl, rfl, rfl, rfl, rfl⟩

/-- A successful run of the whole loop appends a batch of pending
`SaleItem` rows whose line totals sum to the added running total, every
one of the shape `line_total = selling_price * quantity` and tagged
with the flushed sale id. -/
theorem processItems_ok_spec (bid sid : Nat) :
    ∀ (items : List SaleItemCreate) (st st' : LoopState),
      processItems bid sid items st = Except.ok st' →
      ∃ new : List SaleItem,
        st'.sale_items_objects = st.sale_items_objects ++ new ∧
        st'.total_amount = st.total_amount + (new.map (fun it => it.line_total)).sum ∧
        (∀ it ∈ new, it.sale_id = sid ∧ it.line_total = it.selling_price * it.quantity) ∧
        st'.db.sale_items = st.db.sale_items := by
  intro items
  induction items with
  | nil =>
    intro st st' h
    unfold processItems at h
    cases h
    exact ⟨[], by simp⟩
  | cons item rest ih =>
    intro st st' h
    unfold processItems at h
    cases hp : processItem bid sid st item with
    | error e => rw [hp] at h; cases h
    | ok st1 =>
      rw [hp] at h
      obtain ⟨one, ho1, ho2, ho3, ho4, ho5⟩ := processItem_ok_shape bid sid st item st1 hp
      obtain ⟨new, h1, h2, h3, h4⟩ := ih st1 st' h
      refine ⟨one :: new, ?_, ?_, ?_, ?_⟩
      · rw [h1, ho1]
        simp
      · rw [h2, ho2]
        simp [add_assoc]
      · intro it hit
        rcases List.mem_cons.mp hit with hone | hmem
        · rw [hone]; exact ⟨ho3, ho4⟩
        · exact h3 it hmem
      · rw [h4, ho5]

/-- C3: an `HTTPException` raised by any line of the sale — quantity
validation, unknown product, missing inventory, insufficient stock —
rolls the whole transaction back: the store after the failed
`create_sale_txn` run is exactly the store before it, so no Sale row,
SaleItem row, or inventory decrement of any earlier line survives
(first conjunct, over every store and request).  Concretely (second
conjunct): with Rice (10 on hand) and Beans (5 on hand), a sale of 4
Rice then 9 Beans fails on the second line with the 400 naming Beans,
and the committed store is unchanged — the Rice decrement applied for
line one is undone. -/
theorem create_sale_txn_failure_rolls_back_every_line :
    (∀ (bid : Nat) (rid : String) (items : List SaleItemCreate) (db : DB) (s : Nat) (d : String),
        (create_sale_txn bid rid items db).1 = ApiResult.httpError s d →
        (create_sale_txn bid rid items db).2 = db) ∧
    create_sale_txn 1 "r2"
        [{ product_id := 1, quantity := 4 }, { product_id := 2, quantity := 9 }] twoProductDB
      = (ApiResult.httpError 400 "Insufficient stock for Beans", twoProductDB) := by
  constructor
  · intro bid rid items db s d h
    unfold create_sale_txn at h ⊢
    cases hp : processItems bid db.next_sale_id items (initLoopState bid rid db) with
    | error e => rfl
    | ok st => rw [hp] at h; simp at h
  · decide

/-- Witness for C3: a concrete failing run (insufficient Rice stock)
whose resulting store the rollback theorem pins to the original. -/
theorem create_sale_txn_failure_rolls_back_every_line_witness :
    (create_sale_txn 1 "rw" [{ product_id := 1, quantity := 99 }] demoDB).2 = demoDB :=
  create_sale_txn_failure_rolls_back_every_line.1 1 "rw"
    [{ product_id := 1, quantity := 99 }] demoDB 400 "Insufficient stock for Rice" (by decide)

/-- C6: an empty item list, and a duplicate product id in a non-empty
list, are each rejected with the 400 validation error, and the store
comes back unchanged — for every store, including stores already
holding a sale the idempotency lookup would match, so the rejection
precedes the lookup, every lock acquisition (locks are only taken
inside the per-item loop) and every mutation. -/
theorem create_sale_rejects_empty_and_duplicates_first (bid : Nat) (sale_data : SaleCreate)
    (db : DB) :
    (sale_data.items = [] →
      create_sale bid sale_data db = (ApiResult.httpError 400 "Sale must contain items", db)) ∧
    (sale_data.items ≠ [] → ¬ (sale_data.items.map (fun i => i.product_id)).Nodup →
      create_sale bid sale_data db
        = (ApiResult.httpError 400 "Duplicate products in sale are not allowed", db)) := by
  constructor
  · intro h
    simp [create_sale, h]
  · intro hne hdup
    have hlen := length_ne_dedup_of_not_nodup _ hdup
    have hlen' : sale_data.items.length ≠
        (sale_data.items.map (fun i => i.product_id)).dedup.length := by
      simpa using hlen
    simp [create_sale, hne, hlen']

/-- Witness for C6: the two rejections at concrete requests, the
duplicate one against a store already holding a matching sale. -/
theorem create_sale_rejects_empty_and_duplicates_first_witness :
    create_sale 1 { items := [] } demoDB
      = (ApiResult.httpError 400 "Sale must contain items", demoDB) ∧
    create_sale 1
        { items := [{ product_id := 1, quantity := 1 }, { product_id := 1, quantity := 2 }] }
        dbWithSale
      = (ApiResult.httpError 400 "Duplicate products in sale are not allowed", dbWithSale) :=
  ⟨(create_sale_rejects_empty_and_duplicates_first 1 { items := [] } demoDB).1 rfl,
   (create_sale_rejects_empty_and_duplicates_first 1
      { items := [{ product_id := 1, quantity := 1 }, { product_id := 1, quantity := 2 }] }
      dbWithSale).2 (by decide) (by decide)⟩


theorem decrementFirst_nonneg (pid : Nat) (qty : Int) :
    ∀ (invs : List Inventory) (inventory : Inventory),
      invs.find? (fun i => i.product_id == pid) = some inventory →
      qty ≤ inventory.quantity_available →
      (∀ r ∈ invs, 0 ≤ r.quantity_available) →
      ∀ r ∈ decrementFirst pid qty invs, 0 ≤ r.quantity_available := by
  intro invs
  induction invs with
  | nil => intro inventory hf; simp at hf
  | cons a rest ih =>
    intro inventory hf hle hnn
    by_cases hp : a.product_id == pid
    · rw [@List.find?_cons_of_pos _ (fun i => i.product_id == pid) a rest hp] at hf
      injection hf with hf
      subst hf
      unfold decrementFirst
      rw [if_pos hp]
      intro r hr
      rcases List.mem_cons.mp hr with h1 | h2
      · rw [h1]
        simpa using hle
      · exact hnn r (List.mem_cons_of_mem a h2)
    · rw [@List.find?_cons_of_neg _ (fun i => i.product_id == pid) a rest (by simpa using hp)] at hf
      unfold decrementFirst
      rw [if_neg hp]
      intro r hr
      rcases List.mem_cons.mp hr with h1 | h2
      · rw [h1]; exact hnn a (List.mem_cons_self a rest)
      · exact ih inventory hf hle (fun x hx => hnn x (List.mem_cons_of_mem a hx)) r h2

theorem processItem_nonneg (bid sid : Nat) (st : LoopState) (item : SaleItemCreate)
    (st1 : LoopState) (h : processItem bid sid st item = Except.ok st1)
    (hnn : ∀ r ∈ st.db.inventories, 0 ≤ r.quantity_available) :
    ∀ r ∈ st1.db.inventories, 0 ≤ r.quantity_available := by
  unfold processItem at h
  by_cases hq : item.quantity ≤ 0
  · simp [hq] at h
  · simp only [hq, if_false] at h
    cases hfp : findProduct st.db bid item.product_id with
    | none => simp only [hfp] at h; cases h
    | some product =>
      simp only [hfp] at h
      cases hfi : findInventory st.db product.id with
      | none => simp only [hfi] at h; cases h
      | some inventory =>
        simp only [hfi] at h
        by_cases hov : inventory.quantity_available < item.quantity
        · rw [if_pos hov] at h; cases h
        · rw [if_neg hov] at h
          cases h
          show ∀ r ∈ decrementFirst product.id item.quantity st.db.inventories,
            0 ≤ r.quantity_available
          exact decrementFirst_nonneg product.id item.quantity st.db.inventories inventory
            hfi (le_of_not_lt hov) hnn

theorem processItems_nonneg (bid sid : Nat) :
    ∀ (items : List SaleItemCreate) (st st' : LoopState),
      processItems bid sid items st = Except.ok st' →
      (∀ r ∈ st.db.inventories, 0 ≤ r.quantity_available) →
      ∀ r ∈ st'.db.inventories, 0 ≤ r.quantity_available := by
  intro items
  induction items with
  | nil =>
    intro st st' h hnn
    unfold processItems at h
    cases h
    exact hnn
  | cons item rest ih =>
    intro st st' h hnn
    unfold processItems at h
    cases hp : processItem bid sid st item with
    | error e => rw [hp] at h; cases h
    | ok st1 =>
      rw [hp] at h
      exact ih st1 st' h (processItem_nonneg bid sid st item st1 hp hnn)

theorem replaceInventoryFirst_nonneg (iid : Nat) (inv' : Inventory)
    (h' : 0 ≤ inv'.quantity_available) :
    ∀ (invs : List Inventory), (∀ r ∈ invs, 0 ≤ r.quantity_available) →
      ∀ r ∈ replaceInventoryFirst iid inv' invs, 0 ≤ r.quantity_available := by
  intro invs
  induction invs with
  | nil => intro _ r hr; simp [replaceInventoryFirst] at hr
  | cons a rest ih =>
    intro hnn r hr
    unfold replaceInventoryFirst at hr
    by_cases hid : a.id == iid
    · rw [if_pos hid] at hr
      rcases List.mem_cons.mp hr with h1 | h2
      · rw [h1]; exact h'
      · exact hnn r (List.mem_cons_of_mem a h2)
    · rw [if_neg hid] at hr
      rcases List.mem_cons.mp hr with h1 | h2
      · rw [h1]; exact hnn a (List.mem_cons_self a rest)
      · exact ih (fun x hx => hnn x (List.mem_cons_of_mem a hx)) r h2

theorem update_inventory_expiry_step_nonneg (inv : Inventory) (d : InventoryUpdate) (db : DB)
    (hdb : invNonneg db) (hinv : 0 ≤ inv.quantity_available) :
    invNonneg (update_inventory_expiry_step inv d db).2 := by
  unfold update_inventory_expiry_step
  cases hd : d.expiry_date with
  | none =>
    dsimp only
    exact replaceInventoryFirst_nonneg inv.id inv hinv db.inventories hdb
  | some dd =>
    dsimp only
    exact replaceInventoryFirst_nonneg inv.id { inv with expiry_date := some dd } hinv
      db.inventories hdb

theorem update_inventory_threshold_step_nonneg (inv : Inventory) (d : InventoryUpdate) (db : DB)
    (hdb : invNonneg db) (hinv : 0 ≤ inv.quantity_available) :
    invNonneg (update_inventory_threshold_step inv d db).2 := by
  unfold update_inventory_threshold_step
  cases hd : d.low_stock_threshold with
  | none =>
    dsimp only
    exact update_inventory_expiry_step_nonneg inv d db hdb hinv
  | some t =>
    dsimp only
    by_cases ht : t < 0
    · rw [if_pos ht]; exact hdb
    · rw [if_neg ht]
      exact update_inventory_expiry_step_nonneg { inv with low_stock_threshold := t } d db hdb hinv

theorem add_inventory_nonneg (bid pid : Nat) (cdata : InventoryCreate) (db : DB)
    (hdb : invNonneg db) : invNonneg (add_inventory bid pid cdata db).2 := by
  unfold add_inventory
  cases hfp : findProduct db bid pid with
  | none => exact hdb
  | some product =>
    dsimp only
    cases hfi : findInventory db product.id with
    | some x => exact hdb
    | none =>
      dsimp only
      by_cases hneg : cdata.quantity_available < 0
      · rw [if_pos hneg]; exact hdb
      · rw [if_neg hneg]
        intro r hr
        rcases List.mem_append.mp hr with h1 | h2
        · exact hdb r h1
        · simp at h2
          rw [h2]
          simpa using le_of_not_lt hneg

theorem update_inventory_nonneg (bid pid : Nat) (udata : InventoryUpdate) (db : DB)
    (hdb : invNonneg db) : invNonneg (update_inventory bid pid udata db).2 := by
  unfold update_inventory
  cases hf : db.inventories.find? (fun inv => inv.product_id == pid &&
      db.products.any (fun p => p.id == inv.product_id && p.business_id == bid)) with
  | none => exact hdb
  | some inventory =>
    dsimp only
    have hmem := List.mem_of_find?_eq_some hf
    have hinv : 0 ≤ inventory.quantity_available := hdb inventory hmem
    cases hq : udata.quantity_available with
    | none =>
      dsimp only
      exact update_inventory_threshold_step_nonneg inventory udata db hdb hinv
    | some q =>
      dsimp only
      by_cases hneg : q < 0
      · rw [if_pos hneg]; exact hdb
      · rw [if_neg hneg]
        exact update_inventory_threshold_step_nonneg
          { inventory with quantity_available := q } udata db hdb (le_of_not_lt hneg)

theorem create_sale_txn_nonneg (bid : Nat) (rid : String) (items : List SaleItemCreate)
    (db : DB) (hdb : invNonneg db) : invNonneg (create_sale_txn bid rid items db).2 := by
  unfold create_sale_txn
  cases hp : processItems bid db.next_sale_id items (initLoopState bid rid db) with
  | error e => exact hdb
  | ok st => exact processItems_nonneg bid db.next_sale_id items _ st hp hdb

theorem create_sale_nonneg (bid : Nat) (sale_data : SaleCreate) (db : DB)
    (hdb : invNonneg db) : invNonneg (create_sale bid sale_data db).2 := by
  unfold create_sale
  by_cases h1 : sale_data.items = []
  · rw [if_pos h1]; exact hdb
  · rw [if_neg h1]
    by_cases h2 : (sale_data.items.map (fun i => i.product_id)).length ≠
        (sale_data.items.map (fun i => i.product_id)).dedup.length
    · rw [if_pos h2]; exact hdb
    · rw [if_neg h2]; exact hdb

/-- C4: starting from a store in which every inventory quantity is
non-negative, every committed operation — the sale endpoint, the sale
transaction engine, inventory creation, inventory update — leaves
every inventory quantity non-negative: a sale decrements only when the
locked row holds at least the requested quantity, and both inventory
endpoints reject negative quantity values with a 400. -/
theorem committed_inventory_never_negative (bid pid : Nat) (rid : String)
    (sale_data : SaleCreate) (items : List SaleItemCreate) (cdata : InventoryCreate)
    (udata : InventoryUpdate) (db : DB) (h : invNonneg db) :
    invNonneg (create_sale bid sale_data db).2 ∧
    invNonneg (create_sale_txn bid rid items db).2 ∧
    invNonneg (add_inventory bid pid cdata db).2 ∧
    invNonneg (update_inventory bid pid udata db).2 :=
  ⟨create_sale_nonneg bid sale_data db h, create_sale_txn_nonneg bid rid items db h,
   add_inventory_nonneg bid pid cdata db h, update_inventory_nonneg bid pid udata db h⟩

/-- Witness for C4: the invariant carried through concrete runs of all
four operations on the demo store. -/
theorem committed_inventory_never_negative_witness :
    invNonneg (create_sale 1 { items := [{ product_id := 1, quantity := 2 }] } demoDB).2 ∧
    invNonneg (create_sale_txn 1 "r1" [{ product_id := 1, quantity := 2 }] demoDB).2 ∧
    invNonneg (add_inventory 1 1
      { quantity_available := 3, low_stock_threshold := 5, expiry_date := none } demoDB).2 ∧
    invNonneg (update_inventory 1 1
      { quantity_available := some 0, low_stock_threshold := none, expiry_date := none }
      demoDB).2 :=
  committed_inventory_never_negative 1 1 "r1" { items := [{ product_id := 1, quantity := 2 }] }
    [{ product_id := 1, quantity := 2 }]
    { quantity_available := 3, low_stock_threshold := 5, expiry_date := none }
    { quantity_available := some 0, low_stock_threshold := none, expiry_date := none }
    demoDB (by decide)

/-- C5: a committed sale's `total_amount` is exactly the sum of the
line totals of the `SaleItem` rows the transaction persisted for it,
and every such line total is exactly the snapshotted selling price
multiplied by the line quantity — all in exact fixed-point arithmetic,
with no rounding anywhere. -/
theorem sale_total_equals_sum_of_line_totals (bid : Nat) (rid : String)
    (items : List SaleItemCreate) (db : DB) (sale : Sale) (db' : DB)
    (h : create_sale_txn bid rid items db = (ApiResult.ok 201 sale, db')) :
    ∃ new : List SaleItem,
      db'.sale_items = db.sale_items ++ new ∧
      sale.total_amount = (new.map (fun it => it.line_total)).sum ∧
      ∀ it ∈ new, it.sale_id = sale.id ∧ it.line_total = it.selling_price * it.quantity := by
  unfold create_sale_txn at h
  cases hp : processItems bid db.next_sale_id items (initLoopState bid rid db) with
  | error e => rw [hp] at h; cases h
  | ok st =>
    rw [hp] at h
    obtain ⟨new, h1, h2, h3, h4⟩ := processItems_ok_spec bid db.next_sale_id items _ st hp
    have hinit_objs : (initLoopState bid rid db).sale_items_objects = [] := rfl
    have hinit_total : (initLoopState bid rid db).total_amount = 0 := rfl
    have hinit_items : (initLoopState bid rid db).db.sale_items = db.sale_items := rfl
    rw [hinit_objs] at h1
    rw [hinit_total] at h2
    rw [hinit_items] at h4
    simp only [List.nil_append, zero_add] at h1 h2
    obtain ⟨hfst, hsnd⟩ := Prod.mk.injEq .. ▸ h
    injection hfst with hstat hrec
    subst hrec
    subst hsnd
    refine ⟨new, ?_, ?_, ?_⟩
    · show st.db.sale_items ++ st.sale_items_objects = db.sale_items ++ new
      rw [h4, h1]
    · exact h2
    · intro it hit
      exact h3 it hit

/-- Witness for C5: the concrete committed two-Rice sale, whose single
line item carries line total 2 × 5.00 = 10.00 = the sale total. -/
theorem sale_total_equals_sum_of_line_totals_witness :
    ∃ new : List SaleItem,
      demoDBAfterSale.sale_items = demoDB.sale_items ++ new ∧
      demoSaleResult.total_amount = (new.map (fun it => it.line_total)).sum ∧
      ∀ it ∈ new, it.sale_id = demoSaleResult.id ∧
        it.line_total = it.selling_price * it.quantity :=
  sale_total_equals_sum_of_line_totals 1 "r1" [{ product_id := 1, quantity := 2 }] demoDB
    demoSaleResult demoDBAfterSale (by decide)

/-- C1: the claim says a well-formed, fully stocked, non-duplicate
`POST /sales` commits a 201 sale and decrements inventory.  The code
does not: `SaleCreate` declares no `request_id` field, so the read of
`sale_data.request_id` at the idempotency lookup raises
`AttributeError` (HTTP 500) for every request that passes the early
validation, and nothing is persisted.  The second conjunct shows the
transaction engine itself (given the request-id value the router tries
to read) would produce exactly the claimed 201 outcome: stock 10 → 8,
total 2 × 5.00, the sale and its line item persisted. -/
theorem create_sale_valid_request_hits_attribute_error :
    create_sale 1 { items := [{ product_id := 1, quantity := 2 }] } demoDB
      = (ApiResult.attrError "request_id", demoDB) ∧
    create_sale_txn 1 "r1" [{ product_id := 1, quantity := 2 }] demoDB
      = (ApiResult.ok 201 demoSaleResult, demoDBAfterSale) := by
  decide

/-- C2: the claim says a second `POST /sales` with an already-committed
request id returns the first sale unchanged.  The code cannot: the
replay request crashes with `AttributeError` at the very read of
`sale_data.request_id` that the idempotency lookup needs, before the
lookup runs — even though (first conjunct) the prior sale is present
and the lookup would have found it. -/
theorem create_sale_replay_hits_attribute_error :
    findSaleByRequest dbWithSale 1 "r1" = some demoSaleResult ∧
    create_sale 1 { items := [{ product_id := 1, quantity := 7 }] } dbWithSale
      = (ApiResult.attrError "request_id", dbWithSale) := by
  decide

/-- C7: the claim says a sale referencing another business's product
(or a nonexistent id) fails with 404, never an internal error.  The
code instead raises `AttributeError` (HTTP 500) reading
`sale_data.request_id` before product resolution (first conjunct).  The
transaction engine itself would return the claimed uniform 404 — the
same response for a cross-tenant id as for a nonexistent one — with no
surviving mutation (second and third conjuncts). -/
theorem create_sale_cross_tenant_hits_attribute_error :
    create_sale 2 { items := [{ product_id := 1, quantity := 1 }] } demoDB
      = (ApiResult.attrError "request_id", demoDB) ∧
    create_sale_txn 2 "r4" [{ product_id := 1, quantity := 1 }] demoDB
      = (ApiResult.httpError 404 "Product not found", demoDB) ∧
    create_sale_txn 2 "r4" [{ product_id := 99, quantity := 1 }] demoDB
      = (ApiResult.httpError 404 "Product not found", demoDB) := by
  decide

/-- C10: the claim says a line whose product exists but has no
inventory row fails with a 400 naming the product and the whole sale
rolls back.  The endpoint instead raises `AttributeError` (HTTP 500)
before the loop (first conjunct).  The transaction engine itself
behaves as claimed: the run decrements Rice for the first line, then
fails on inventory-less Chairs with the 400 naming it, and the
returned store is unchanged — the earlier decrement does not survive
(second conjunct). -/
theorem create_sale_missing_inventory_hits_attribute_error :
    create_sale 1
        { items := [{ product_id := 1, quantity := 2 }, { product_id := 2, quantity := 1 }] }
        noInvDB
      = (ApiResult.attrError "request_id", noInvDB) ∧
    create_sale_txn 1 "r3"
        [{ product_id := 1, quantity := 2 }, { product_id := 2, quantity := 1 }] noInvDB
      = (ApiResult.httpError 400 "No inventory for Chairs", noInvDB) := by
  decide



theorem create_product_price_ok (bid : Nat) (data : ProductCreate) (db : DB)
    (p : Product) (db' : DB) (h : create_product bid data db = (ApiResult.ok 201 p, db')) :
    p.cost_price ≤ p.selling_price := by
  unfold create_product at h
  split at h
  · cases h
  · split at h
    · cases h
    · rename_i hnot
      injection h with h1 h2
      injection h1 with _ h3
      subst h3
      exact le_of_not_lt hnot

theorem update_product_price_ok (bid pid : Nat) (data : ProductUpdate) (db : DB)
    (p : Product) (db' : DB) (h : update_product bid pid data db = (ApiResult.ok 200 p, db')) :
    p.cost_price ≤ p.selling_price := by
  unfold update_product at h
  split at h
  · cases h
  · split at h
    · cases h
    · rename_i hnot
      injection h with h1 h2
      injection h1 with _ h3
      subst h3
      exact le_of_not_lt hnot

theorem findProduct_mapCosts (f : Product → Int) (db : DB) (bid pid : Nat) :
    findProduct (mapCosts f db) bid pid
      = (findProduct db bid pid).map (fun p => { p with cost_price := f p }) := by
  unfold findProduct mapCosts
  dsimp only
  rw [List.find?_map]
  rfl

theorem findInventory_mapCosts (f : Product → Int) (db : DB) (pid : Nat) :
    findInventory (mapCosts f db) pid = findInventory db pid := rfl

theorem processItem_mapCosts (bid sid : Nat) (f : Product → Int) (st : LoopState)
    (item : SaleItemCreate) :
    processItem bid sid (mapCostsLS f st) item
      = Except.map (mapCostsLS f) (processItem bid sid st item) := by
  unfold processItem
  by_cases hq : item.quantity ≤ 0
  · rw [if_pos hq, if_pos hq]; rfl
  · rw [if_neg hq, if_neg hq]
    have hdb : (mapCostsLS f st).db = mapCosts f st.db := rfl
    rw [hdb, findProduct_mapCosts]
    cases hfp : findProduct st.db bid item.product_id with
    | none => rfl
    | some product =>
      dsimp only [Option.map]
      rw [findInventory_mapCosts]
      cases hfi : findInventory st.db product.id with
      | none => rfl
      | some inventory =>
        dsimp only
        by_cases hov : inventory.quantity_available < item.quantity
        · rw [if_pos hov, if_pos hov]; rfl
        · rw [if_neg hov, if_neg hov]
          rfl

theorem processItems_mapCosts (bid sid : Nat) (f : Product → Int) :
    ∀ (items : List SaleItemCreate) (st : LoopState),
      processItems bid sid items (mapCostsLS f st)
        = Except.map (mapCostsLS f) (processItems bid sid items st) := by
  intro items
  induction items with
  | nil => intro st; rfl
  | cons item rest ih =>
    intro st
    unfold processItems
    rw [processItem_mapCosts]
    cases hp : processItem bid sid st item with
    | error e => rfl
    | ok st1 =>
      dsimp only [Except.map]
      exact ih st1

theorem create_sale_txn_mapCosts (bid : Nat) (rid : String) (items : List SaleItemCreate)
    (f : Product → Int) (db : DB) :
    create_sale_txn bid rid items (mapCosts f db)
      = ((create_sale_txn bid rid items db).1,
         mapCosts f (create_sale_txn bid rid items db).2) := by
  unfold create_sale_txn
  have h1 : initLoopState bid rid (mapCosts f db) = mapCostsLS f (initLoopState bid rid db) := rfl
  have h2 : (mapCosts f db).next_sale_id = db.next_sale_id := rfl
  rw [h1, h2, processItems_mapCosts]
  cases hp : processItems bid db.next_sale_id items (initLoopState bid rid db) with
  | error e => rfl
  | ok st =>
    dsimp only [Except.map]
    rfl


theorem findProduct_setExports (es : List ExportAccess) (db : DB) (bid pid : Nat) :
    findProduct (setExports es db) bid pid = findProduct db bid pid := rfl

theorem findInventory_setExports (es : List ExportAccess) (db : DB) (pid : Nat) :
    findInventory (setExports es db) pid = findInventory db pid := rfl

theorem findSaleByRequest_setExports (es : List ExportAccess) (db : DB) (bid : Nat)
    (rid : String) :
    findSaleByRequest (setExports es db) bid rid = findSaleByRequest db bid rid := rfl

theorem processItem_setExports (bid sid : Nat) (es : List ExportAccess) (st : LoopState)
    (item : SaleItemCreate) :
    processItem bid sid (setExportsLS es st) item
      = Except.map (setExportsLS es) (processItem bid sid st item) := by
  unfold processItem
  by_cases hq : item.quantity ≤ 0
  · rw [if_pos hq, if_pos hq]; rfl
  · rw [if_neg hq, if_neg hq]
    have hdb : (setExportsLS es st).db = setExports es st.db := rfl
    rw [hdb, findProduct_setExports]
    cases hfp : findProduct st.db bid item.product_id with
    | none => rfl
    | some product =>
      dsimp only
      rw [findInventory_setExports]
      cases hfi : findInventory st.db product.id with
      | none => rfl
      | some inventory =>
        dsimp only
        by_cases hov : inventory.quantity_available < item.quantity
        · rw [if_pos hov, if_pos hov]; rfl
        · rw [if_neg hov, if_neg hov]
          rfl

theorem processItems_setExports (bid sid : Nat) (es : List ExportAccess) :
    ∀ (items : List SaleItemCreate) (st : LoopState),
      processItems bid sid items (setExportsLS es st)
        = Except.map (setExportsLS es) (processItems bid sid items st) := by
  intro items
  induction items with
  | nil => intro st; rfl
  | cons item rest ih =>
    intro st
    unfold processItems
    rw [processItem_setExports]
    cases hp : processItem bid sid st item with
    | error e => rfl
    | ok st1 =>
      dsimp only [Except.map]
      exact ih st1

theorem create_sale_txn_setExports (bid : Nat) (rid : String) (items : List SaleItemCreate)
    (es : List ExportAccess) (db : DB) :
    create_sale_txn bid rid items (setExports es db)
      = ((create_sale_txn bid rid items db).1,
         setExports es (create_sale_txn bid rid items db).2) := by
  unfold create_sale_txn
  have h1 : initLoopState bid rid (setExports es db) = setExportsLS es (initLoopState bid rid db) := rfl
  have h2 : (setExports es db).next_sale_id = db.next_sale_id := rfl
  rw [h1, h2, processItems_setExports]
  cases hp : processItems bid db.next_sale_id items (initLoopState bid rid db) with
  | error e => rfl
  | ok st =>
    dsimp only [Except.map]
    rfl

theorem create_sale_setExports (bid : Nat) (sale_data : SaleCreate) (es : List ExportAccess)
    (db : DB) :
    create_sale bid sale_data (setExports es db)
      = ((create_sale bid sale_data db).1, setExports es (create_sale bid sale_data db).2) := by
  unfold create_sale
  by_cases h1 : sale_data.items = []
  · rw [if_pos h1, if_pos h1]
  · rw [if_neg h1, if_neg h1]
    by_cases h2 : (sale_data.items.map (fun i => i.product_id)).length ≠
        (sale_data.items.map (fun i => i.product_id)).dedup.length
    · rw [if_pos h2, if_pos h2]
    · rw [if_neg h2, if_neg h2]
      rfl

theorem firstByEndDateDesc_isSome_iff (l : List ExportAccess) :
    (firstByEndDateDesc l).isSome ↔ l ≠ [] := by
  induction l with
  | nil => simp [firstByEndDateDesc]
  | cons a rest ih =>
    unfold firstByEndDateDesc
    cases h : firstByEndDateDesc rest with
    | none => simp
    | some b =>
      dsimp only
      split <;> simp

theorem get_active_subscription_isSome_iff (db : DB) (bid : Nat) (today : Int) :
    (get_active_subscription db bid today).isSome ↔
      ∃ e ∈ db.export_access,
        e.business_id = bid ∧ e.start_date ≤ today ∧ today ≤ e.end_date := by
  unfold get_active_subscription
  rw [firstByEndDateDesc_isSome_iff]
  constructor
  · intro hne
    obtain ⟨e, he⟩ := List.exists_mem_of_ne_nil _ hne
    have hm := List.mem_filter.mp he
    refine ⟨e, hm.1, ?_⟩
    have := hm.2
    simp only [Bool.and_eq_true, beq_iff_eq, decide_eq_true_eq] at this
    exact ⟨this.1.1, this.1.2, this.2⟩
  · rintro ⟨e, hmem, hb, hs, he2⟩ hnil
    have hmf : e ∈ db.export_access.filter
        (fun e => e.business_id == bid && decide (e.start_date ≤ today) &&
          decide (today ≤ e.end_date)) :=
      List.mem_filter.mpr ⟨hmem, by simp [hb, hs, he2]⟩
    rw [hnil] at hmf
    cases hmf

/-- C8: `selling_price >= cost_price` is enforced at product creation
and at product update — an update validates the supplied value of each
price against the retained value of the other — and it is not
re-checked at sale time: the sale transaction never reads
`cost_price`, so rewriting every product's cost price arbitrarily
changes neither the response of `create_sale_txn` nor any other part
of the resulting store. -/
theorem price_floor_enforced_at_create_and_update_not_sale :
    (∀ (bid : Nat) (data : ProductCreate) (db : DB) (p : Product) (db' : DB),
        create_product bid data db = (ApiResult.ok 201 p, db') →
        p.cost_price ≤ p.selling_price) ∧
    (∀ (bid pid : Nat) (data : ProductUpdate) (db : DB) (p : Product) (db' : DB),
        update_product bid pid data db = (ApiResult.ok 200 p, db') →
        p.cost_price ≤ p.selling_price) ∧
    (∀ (bid : Nat) (rid : String) (items : List SaleItemCreate) (f : Product → Int) (db : DB),
        create_sale_txn bid rid items (mapCosts f db)
          = ((create_sale_txn bid rid items db).1,
             mapCosts f (create_sale_txn bid rid items db).2)) :=
  ⟨create_product_price_ok, update_product_price_ok, create_sale_txn_mapCosts⟩

/-- Witness for C8: a concrete product creation and a concrete
partial update (new selling price validated against the retained cost
price), both committing rows that satisfy the floor. -/
theorem price_floor_enforced_at_create_and_update_not_sale_witness :
    oilProduct.cost_price ≤ oilProduct.selling_price ∧
    discountedRice.cost_price ≤ discountedRice.selling_price :=
  ⟨price_floor_enforced_at_create_and_update_not_sale.1 1
      { name := "Oil", cost_price := 200, selling_price := 250 } demoDB oilProduct dbWithOil
      (by decide),
   price_floor_enforced_at_create_and_update_not_sale.2.1 1 1
      { name := none, cost_price := none, selling_price := some 450 } demoDB discountedRice
      dbWithDiscountedRice (by decide)⟩

/-- C9: `get_active_subscription` yields an entitlement exactly when
the business owns an `ExportAccess` row whose `[start_date, end_date]`
window contains today, and the sale-creation path never consults the
gate: replacing the whole `export_access` table changes neither the
response of the `POST /sales` endpoint nor that of the transaction
engine, and the rest of the resulting store is exactly what it would
have been. -/
theorem subscription_gate_iff_window_and_never_consulted_by_sales :
    (∀ (db : DB) (bid : Nat) (today : Int),
        (get_active_subscription db bid today).isSome ↔
          ∃ e ∈ db.export_access,
            e.business_id = bid ∧ e.start_date ≤ today ∧ today ≤ e.end_date) ∧
    (∀ (bid : Nat) (sale_data : SaleCreate) (es : List ExportAccess) (db : DB),
        create_sale bid sale_data (setExports es db)
          = ((create_sale bid sale_data db).1,
             setExports es (create_sale bid sale_data db).2)) ∧
    (∀ (bid : Nat) (rid : String) (items : List SaleItemCreate) (es : List ExportAccess)
        (db : DB),
        create_sale_txn bid rid items (setExports es db)
          = ((create_sale_txn bid rid items db).1,
             setExports es (create_sale_txn bid rid items db).2)) :=
  ⟨get_active_subscription_isSome_iff, create_sale_setExports, create_sale_txn_setExports⟩

end SalesApi
